import Mathlib

/-
Verification of the configuration assembly in tutorial04_rllab.ipynb
(cathywu/flow).  The notebook builds plain configuration records and
threads them into external library calls (flow scenario constructors,
rllab GymEnv / normalize / GaussianMLPPolicy / LinearFeatureBaseline /
TRPO / run_experiment_lite).  The embedding below records, for each
library call of the notebook, exactly the arguments the notebook passes,
and models run_task both as a call trace (parameterised over the horizon
value the externally constructed environment reports) and as an
exception-propagating computation over opaque external calls.
-/

namespace Tutorial04

/-- A value stored in one of the notebook's additional-parameter
dictionaries: an integer, a list of integers (used for the ring-length
range), or an external constant whose value is supplied by a library
module outside the artifact. -/
inductive PVal where
  | i (n : Int)
  | ilist (l : List Int)
  | ext (tag : String)
  deriving DecidableEq

/-- Acceleration-controller classes imported by the notebook. -/
inductive AccelCtrl where
  | IDMController
  | RLController
  deriving DecidableEq

/-- Routing-controller classes imported by the notebook. -/
inductive RouteCtrl where
  | ContinuousRouter
  deriving DecidableEq

/-- One entry of the vehicle registry: exactly the keyword arguments the
notebook passes to VehicleParams.add.  Each controller is passed as a
(class, parameter-dictionary) pair, with an empty dictionary here. -/
structure VehicleEntry where
  veh_id : String
  acceleration_controller : AccelCtrl × List (String × PVal)
  routing_controller : RouteCtrl × List (String × PVal)
  num_vehicles : Nat
  deriving DecidableEq

/-- The vehicle registry after the two add calls of the notebook:
vehicles.add("human", (IDMController, {}), (ContinuousRouter, {}), 21)
followed by
vehicles.add(veh_id="rl", (RLController, {}), (ContinuousRouter, {}), 1). -/
def vehicles : List VehicleEntry :=
  [ { veh_id := "human"
      acceleration_controller := (AccelCtrl.IDMController, [])
      routing_controller := (RouteCtrl.ContinuousRouter, [])
      num_vehicles := 21 },
    { veh_id := "rl"
      acceleration_controller := (AccelCtrl.RLController, [])
      routing_controller := (RouteCtrl.ContinuousRouter, [])
      num_vehicles := 1 } ]

/-- Modelled from the spec: flow.scenarios.loop.ADDITIONAL_NET_PARAMS is
imported by the notebook but its module is not part of the artifact; the
spec describes the network parameters as "ring length and lane count",
so the dictionary is modelled with those two fields, their numeric
values being external constants. -/
def ADDITIONAL_NET_PARAMS : List (String × PVal) :=
  [("length", PVal.ext "loop_ring_length"),
   ("lanes", PVal.ext "loop_lane_count")]

/-- Arguments of the NetParams constructor call. -/
structure NetParamsArgs where
  additional_params : List (String × PVal)
  deriving DecidableEq

/-- net_params = NetParams(additional_params=ADDITIONAL_NET_PARAMS). -/
def net_params : NetParamsArgs :=
  { additional_params := ADDITIONAL_NET_PARAMS }

/-- Arguments of the InitialConfig constructor call. -/
structure InitialConfigArgs where
  spacing : String
  perturbation : Int
  deriving DecidableEq

/-- initial_config = InitialConfig(spacing="uniform", perturbation=1). -/
def initial_config : InitialConfigArgs :=
  { spacing := "uniform", perturbation := 1 }

/-- traffic_lights = TrafficLightParams(): constructed with no
arguments. -/
def traffic_lights : Unit := ()

/-- Arguments of the SumoParams constructor call: exactly the keyword
arguments the notebook passes. -/
structure SumoParamsArgs where
  sim_step : ℚ
  render : Bool
  deriving DecidableEq

/-- sumo_params = SumoParams(sim_step=0.1, render=False). -/
def sumo_params : SumoParamsArgs :=
  { sim_step := 1 / 10, render := false }

/-- Arguments of the EnvParams constructor call. -/
structure EnvParamsArgs where
  horizon : Nat
  additional_params : List (String × PVal)
  deriving DecidableEq

/-- env_params = EnvParams(horizon=100, additional_params={"max_accel":
1, "max_decel": 1, "ring_length": [220, 270]}). -/
def env_params : EnvParamsArgs :=
  { horizon := 100
    additional_params :=
      [("max_accel", PVal.i 1),
       ("max_decel", PVal.i 1),
       ("ring_length", PVal.ilist [220, 270])] }

/-- Arguments of the LoopScenario constructor call. -/
structure LoopScenarioArgs where
  name : String
  vehicles : List VehicleEntry
  net_params : NetParamsArgs
  initial_config : InitialConfigArgs
  traffic_lights : Unit
  deriving DecidableEq

/-- scenario = LoopScenario(name="ring_example", vehicles=vehicles,
net_params=net_params, initial_config=initial_config,
traffic_lights=traffic_lights). -/
def scenario : LoopScenarioArgs :=
  { name := "ring_example"
    vehicles := vehicles
    net_params := net_params
    initial_config := initial_config
    traffic_lights := traffic_lights }

/-- env_name = "WaveAttenuationPOEnv". -/
def env_name : String := "WaveAttenuationPOEnv"

/-- The configuration tuple pass_params = (env_name, sumo_params,
vehicles, env_params, net_params, initial_config, scenario). -/
structure PassParams where
  env_name : String
  sumo_params : SumoParamsArgs
  vehicles : List VehicleEntry
  env_params : EnvParamsArgs
  net_params : NetParamsArgs
  initial_config : InitialConfigArgs
  scenario : LoopScenarioArgs
  deriving DecidableEq

def pass_params : PassParams :=
  { env_name := env_name
    sumo_params := sumo_params
    vehicles := vehicles
    env_params := env_params
    net_params := net_params
    initial_config := initial_config
    scenario := scenario }

/-- The keyword arguments run_task passes to the TRPO constructor,
besides the env, policy and baseline objects. -/
structure TRPOArgs where
  batch_size : Nat
  max_path_length : Nat
  discount : ℚ
  n_itr : Nat
  deriving DecidableEq

/-- One external rllab call issued by run_task, with the arguments the
notebook passes to it.  horizonRead records the attribute read
horizon = env.horizon together with the value obtained. -/
inductive RLlabCall where
  | gymEnv (name : String) (record_video : Bool) (register_params : PassParams)
  | horizonRead (value : Nat)
  | normalizeEnv
  | gaussianMLPPolicy (hidden_sizes : Nat × Nat)
  | linearFeatureBaseline
  | trpo (args : TRPOArgs)
  | train
  deriving DecidableEq

/-- The sequence of external calls run_task performs, in source order,
as a function of the horizon value the externally constructed
environment reports. -/
def run_task_trace (envHorizon : Nat) : List RLlabCall :=
  [RLlabCall.gymEnv env_name false pass_params,
   RLlabCall.horizonRead envHorizon,
   RLlabCall.normalizeEnv,
   RLlabCall.gaussianMLPPolicy (32, 32),
   RLlabCall.linearFeatureBaseline,
   RLlabCall.trpo
     { batch_size := 1000
       max_path_length := envHorizon
       discount := 999 / 1000
       n_itr := 1 },
   RLlabCall.train]

/-- Extracts the arguments of the TRPO call from a trace. -/
def trpoArgsOf (t : List RLlabCall) : Option TRPOArgs :=
  t.findSome? fun c =>
    match c with
    | RLlabCall.trpo a => some a
    | _ => none

/-- The external rllab operations run_task calls, each fallible with
errors of type E (a Python exception).  The horizon field models the
attribute read env.horizon, which does not raise. -/
structure Externals (E Env NEnv Pol Base Algo : Type) where
  gymEnv : String → Bool → PassParams → Except E Env
  horizon : Env → Nat
  normalizeEnv : Env → Except E NEnv
  gaussianMLPPolicy : NEnv → Nat × Nat → Except E Pol
  linearFeatureBaseline : NEnv → Except E Base
  trpo : NEnv → Pol → Base → TRPOArgs → Except E Algo
  train : Algo → Except E Unit

/-- run_task as an exception-propagating computation: it performs the
external calls in source order and contains no handler, so the first
error raised by any call is returned unchanged. -/
def run_taskE {E Env NEnv Pol Base Algo : Type}
    (ext : Externals E Env NEnv Pol Base Algo) : Except E Unit :=
  match ext.gymEnv env_name false pass_params with
  | Except.error e => Except.error e
  | Except.ok env =>
    match ext.normalizeEnv env with
    | Except.error e => Except.error e
    | Except.ok nenv =>
      match ext.gaussianMLPPolicy nenv (32, 32) with
      | Except.error e => Except.error e
      | Except.ok pol =>
        match ext.linearFeatureBaseline nenv with
        | Except.error e => Except.error e
        | Except.ok base =>
          match ext.trpo nenv pol base
              { batch_size := 1000
                max_path_length := ext.horizon env
                discount := 999 / 1000
                n_itr := 1 } with
          | Except.error e => Except.error e
          | Except.ok algo => ext.train algo

/-- Tag for the callable passed to run_experiment_lite. -/
inductive TaskRef where
  | run_task
  deriving DecidableEq

/-- The arguments of one run_experiment_lite invocation: the callable
plus exactly the keyword arguments the notebook passes.  exp_label
models the keyword argument named exp-underscore-pre-fix in the
source. -/
structure LaunchArgs where
  task : TaskRef
  n_parallel : Nat
  snapshot_mode : String
  seed : Int
  mode : String
  exp_label : String
  deriving DecidableEq

/-- The run_experiment_lite invocation the loop body issues for a given
seed. -/
def mkLaunch (s : Int) : LaunchArgs :=
  { task := TaskRef.run_task
    n_parallel := 1
    snapshot_mode := "all"
    seed := s
    mode := "local"
    exp_label := "training_example" }

/-- The seed list iterated over: for seed in [5]. -/
def seeds : List Int := [5]

/-- The launcher invocations the loop performs, in order. -/
def launch_calls : List LaunchArgs := seeds.map mkLaunch

/-- The per-seed launch loop as an exception-propagating computation
over an opaque launcher: a raised error stops the loop and is returned
unchanged. -/
def runSeedsE {E : Type} (launcher : LaunchArgs → Except E Unit) :
    List Int → Except E Unit
  | [] => Except.ok ()
  | s :: rest =>
    match launcher (mkLaunch s) with
    | Except.error e => Except.error e
    | Except.ok _ => runSeedsE launcher rest

/-- The notebook-level variables holding configuration records (the
variable called name in the source is modelled as nm). -/
inductive NVar where
  | nm
  | net_params
  | initial_config
  | traffic_lights
  | vehicles
  | scenario
  | sumo_params
  | env_params
  | env_name
  | pass_params
  | run_task_fn
  deriving DecidableEq

/-- One top-level statement of the notebook, abstracted to the
configuration variables it writes and the ones it reads as arguments of
a call or aggregate construction (imports and the print statement touch
no configuration variable and are omitted). -/
structure NStmt where
  writes : List NVar
  reads : List NVar
  deriving DecidableEq

/-- The notebook's statements in execution order. -/
def notebook_stmts : List NStmt :=
  [ { writes := [NVar.nm], reads := [] },
    { writes := [NVar.net_params], reads := [] },
    { writes := [NVar.initial_config], reads := [] },
    { writes := [NVar.traffic_lights], reads := [] },
    { writes := [NVar.vehicles], reads := [] },
    { writes := [NVar.vehicles], reads := [NVar.vehicles] },
    { writes := [NVar.vehicles], reads := [NVar.vehicles] },
    { writes := [NVar.scenario],
      reads := [NVar.vehicles, NVar.net_params, NVar.initial_config,
                NVar.traffic_lights] },
    { writes := [NVar.sumo_params], reads := [] },
    { writes := [NVar.env_params], reads := [] },
    { writes := [NVar.env_name], reads := [] },
    { writes := [NVar.pass_params],
      reads := [NVar.env_name, NVar.sumo_params, NVar.vehicles,
                NVar.env_params, NVar.net_params, NVar.initial_config,
                NVar.scenario] },
    { writes := [NVar.run_task_fn],
      reads := [NVar.env_name, NVar.pass_params] },
    { writes := [], reads := [NVar.run_task_fn] } ]

/-- Indices of the statements that write a variable. -/
def writersOf (v : NVar) : List Nat :=
  (List.range notebook_stmts.length).filter fun i =>
    decide (v ∈ (notebook_stmts.getD i { writes := [], reads := [] }).writes)

/-- Indices of the statements that read a variable. -/
def readersOf (v : NVar) : List Nat :=
  (List.range notebook_stmts.length).filter fun i =>
    decide (v ∈ (notebook_stmts.getD i { writes := [], reads := [] }).reads)

/-- A list of indices is a block of consecutive positions. -/
def isConsecutive : List Nat → Bool
  | [] => true
  | [_] => true
  | a :: b :: t => decide (b = a + 1) && isConsecutive (b :: t)

/-- The configuration records named by the specification: network
parameters, initial placement config, vehicle registry, environment
parameters, simulation parameters, and the aggregate configuration
tuple. -/
def configRecords : List NVar :=
  [NVar.net_params, NVar.initial_config, NVar.vehicles,
   NVar.env_params, NVar.sumo_params, NVar.pass_params]

/-- A concrete environment object used to instantiate the external
interface on concrete inputs. -/
structure GymEnvObj where
  horizon : Nat
  deriving DecidableEq

/-- Concrete externals in which the GymEnv construction raises. -/
def extGymFail : Externals Nat GymEnvObj Unit Unit Unit Unit :=
  { gymEnv := fun _ _ _ => Except.error 1
    horizon := GymEnvObj.horizon
    normalizeEnv := fun _ => Except.ok ()
    gaussianMLPPolicy := fun _ _ => Except.ok ()
    linearFeatureBaseline := fun _ => Except.ok ()
    trpo := fun _ _ _ _ => Except.ok ()
    train := fun _ => Except.ok () }

/-- Concrete externals in which normalize raises. -/
def extNormFail : Externals Nat GymEnvObj Unit Unit Unit Unit :=
  { extGymFail with
    gymEnv := fun _ _ _ => Except.ok { horizon := 100 }
    normalizeEnv := fun _ => Except.error 2 }

/-- Concrete externals in which the policy construction raises. -/
def extPolFail : Externals Nat GymEnvObj Unit Unit Unit Unit :=
  { extNormFail with
    normalizeEnv := fun _ => Except.ok ()
    gaussianMLPPolicy := fun _ _ => Except.error 3 }

/-- Concrete externals in which the baseline construction raises. -/
def extBaseFail : Externals Nat GymEnvObj Unit Unit Unit Unit :=
  { extPolFail with
    gaussianMLPPolicy := fun _ _ => Except.ok ()
    linearFeatureBaseline := fun _ => Except.error 4 }

/-- Concrete externals in which the TRPO construction raises. -/
def extTrpoFail : Externals Nat GymEnvObj Unit Unit Unit Unit :=
  { extBaseFail with
    linearFeatureBaseline := fun _ => Except.ok ()
    trpo := fun _ _ _ _ => Except.error 5 }

/-- Concrete externals in which training raises. -/
def extTrainFail : Externals Nat GymEnvObj Unit Unit Unit Unit :=
  { extTrpoFail with
    trpo := fun _ _ _ _ => Except.ok ()
    train := fun _ => Except.error 6 }

/-- A concrete launcher that raises on every invocation. -/
def launcherFail : LaunchArgs → Except Nat Unit := fun _ => Except.error 7

/-- A concrete launcher that succeeds on every invocation. -/
def launcherOk : LaunchArgs → Except Nat Unit := fun _ => Except.ok ()

/-- C2: the vehicle registry holds exactly two entries, a human-driven
one (IDMController, 21 vehicles) and an RL-driven one (RLController,
1 vehicle); each entry carries exactly the fields veh_id,
acceleration_controller, routing_controller and num_vehicles (the
VehicleEntry record has exactly those fields), and exactly one entry
uses each controller kind. -/
theorem C2_vehicle_registry :
    vehicles.length = 2 ∧
    vehicles.get? 0 = some
      { veh_id := "human"
        acceleration_controller := (AccelCtrl.IDMController, [])
        routing_controller := (RouteCtrl.ContinuousRouter, [])
        num_vehicles := 21 } ∧
    vehicles.get? 1 = some
      { veh_id := "rl"
        acceleration_controller := (AccelCtrl.RLController, [])
        routing_controller := (RouteCtrl.ContinuousRouter, [])
        num_vehicles := 1 } ∧
    vehicles.countP
      (fun v => decide (v.acceleration_controller.1 = AccelCtrl.IDMController)) = 1 ∧
    vehicles.countP
      (fun v => decide (v.acceleration_controller.1 = AccelCtrl.RLController)) = 1 := by
  decide

/-- C4: the simulation-level parameter object is built with exactly the
fields sim_step = 0.1 and render = false, and the environment-level
parameter object is built with the positive integer horizon 100 and an
additional_params mapping whose keys are exactly max_accel (value 1),
max_decel (value 1) and ring_length (value [220, 270]). -/
theorem C4_sim_and_env_params :
    sumo_params = { sim_step := 1 / 10, render := false } ∧
    env_params.horizon = 100 ∧
    0 < env_params.horizon ∧
    env_params.additional_params.map Prod.fst =
      ["max_accel", "max_decel", "ring_length"] ∧
    List.lookup "max_accel" env_params.additional_params = some (PVal.i 1) ∧
    List.lookup "max_decel" env_params.additional_params = some (PVal.i 1) ∧
    List.lookup "ring_length" env_params.additional_params =
      some (PVal.ilist [220, 270]) :=
  ⟨rfl, by decide⟩

/-- C5 counterexample: the ring-length range the agent is trained on,
[220, 270], is not a field of net_params: no key of net_params'
additional fields is ring_length and no value is the range, whereas the
range is a field of env_params' additional mapping. -/
theorem C5_counterexample :
    List.lookup "ring_length" net_params.additional_params = none ∧
    net_params.additional_params.all
      (fun p => !decide (p.2 = PVal.ilist [220, 270])) = true ∧
    List.lookup "ring_length" env_params.additional_params =
      some (PVal.ilist [220, 270]) := by
  decide

/-- C5 amended: the ring-length range the agent is trained on is a
field of the environment parameter object's additional mapping, not of
the network parameter object; net_params' additional fields are exactly
the scenario's ring length and lane count. -/
theorem C5_amended_ring_length_range :
    List.lookup "ring_length" env_params.additional_params =
      some (PVal.ilist [220, 270]) ∧
    net_params.additional_params.map Prod.fst = ["length", "lanes"] ∧
    "ring_length" ∉ net_params.additional_params.map Prod.fst := by
  decide

/-- C6: the loop issues one run_experiment_lite invocation per seed of
the seed list, each seed exactly once, and every invocation passes
exactly n_parallel = 1, snapshot_mode = "all", the seed, mode = "local"
and the experiment label "training_example" together with the run_task
callable. -/
theorem C6_launch_loop :
    launch_calls.length = seeds.length ∧
    (∀ s ∈ seeds,
      launch_calls.countP (fun c => decide (c.seed = s)) = 1) ∧
    (∀ c ∈ launch_calls,
      c.task = TaskRef.run_task ∧ c.n_parallel = 1 ∧
      c.snapshot_mode = "all" ∧ c.mode = "local" ∧
      c.exp_label = "training_example" ∧ c.seed ∈ seeds) := by
  decide

/-- C10: the two vehicle-registry entries have the distinct identifiers
"human" and "rl", both use the ContinuousRouter routing strategy, and
the vehicle counts sum to 22. -/
theorem C10_registry_invariants :
    vehicles.map VehicleEntry.veh_id = ["human", "rl"] ∧
    (vehicles.map VehicleEntry.veh_id).Nodup ∧
    vehicles.all
      (fun v => decide (v.routing_controller.1 = RouteCtrl.ContinuousRouter)) = true ∧
    (vehicles.map VehicleEntry.num_vehicles).sum = 22 := by
  decide

/-- C8: every configuration record is written only by its own
construction block — its writing statements form one consecutive block,
so no statement after construction mutates it — and after construction
it is only read, as an argument of a later call or aggregate (each
record has at least one such later read and is never written again). -/
theorem C8_records_constructed_once :
    configRecords.all
      (fun v =>
        !(writersOf v).isEmpty &&
        isConsecutive (writersOf v) &&
        (readersOf v).any
          (fun i => (writersOf v).all (fun j => decide (j < i)))) = true := by
  decide

/-- C1 counterexample: the arguments run_task passes to the TRPO
constructor are not all fixed literals: the max_path_length argument
varies with the horizon the externally constructed environment reports
(here, horizons 100 and 200 yield different argument records). -/
theorem C1_trpo_args_counterexample :
    trpoArgsOf (run_task_trace 100) ≠ trpoArgsOf (run_task_trace 200) := by
  intro h
  have h1 : (100 : Nat) = 200 :=
    congrArg (fun o => (Option.map TRPOArgs.max_path_length o).getD 0) h
  exact absurd h1 (by decide)

/-- C1 amended: run_task invokes TRPO with the literal arguments
batch_size = 1000, discount = 0.999 and n_itr = 1 and builds the policy
with hidden layer sizes (32, 32), but not every optimizer argument is a
literal: max_path_length is the horizon value read from the constructed
environment. -/
theorem C1_trpo_literal_args :
    ∀ envHorizon : Nat,
      trpoArgsOf (run_task_trace envHorizon) = some
        { batch_size := 1000
          max_path_length := envHorizon
          discount := 999 / 1000
          n_itr := 1 } ∧
      RLlabCall.gaussianMLPPolicy (32, 32) ∈ run_task_trace envHorizon ∧
      RLlabCall.horizonRead envHorizon ∈ run_task_trace envHorizon :=
  fun envHorizon =>
    ⟨rfl, by simp [run_task_trace], by simp [run_task_trace]⟩

/-- C3: run_task performs its external calls in the order: GymEnv
construction from the string name "WaveAttenuationPOEnv" with the
configuration tuple pass_params, then the normalization wrapper, then
the policy, then the baseline, then the TRPO optimizer configured for a
fixed single iteration, and finally training. -/
theorem C3_run_task_order :
    ∀ envHorizon : Nat, ∃ iE iN iP iB iT iR : Nat,
      iE < iN ∧ iN < iP ∧ iP < iB ∧ iB < iT ∧ iT < iR ∧
      (run_task_trace envHorizon).get? iE =
        some (RLlabCall.gymEnv "WaveAttenuationPOEnv" false pass_params) ∧
      (run_task_trace envHorizon).get? iN = some RLlabCall.normalizeEnv ∧
      (run_task_trace envHorizon).get? iP =
        some (RLlabCall.gaussianMLPPolicy (32, 32)) ∧
      (run_task_trace envHorizon).get? iB =
        some RLlabCall.linearFeatureBaseline ∧
      (∃ args, (run_task_trace envHorizon).get? iT =
        some (RLlabCall.trpo args) ∧ args.n_itr = 1) ∧
      (run_task_trace envHorizon).get? iR = some RLlabCall.train :=
  fun _ =>
    ⟨0, 2, 3, 4, 5, 6, by decide, by decide, by decide, by decide, by decide,
     rfl, rfl, rfl, rfl, ⟨_, rfl, rfl⟩, rfl⟩

/-- C9: run_task reads the horizon from the environment object before
the normalization wrapper is applied, and that same value is the one
passed as max_path_length to the TRPO optimizer; max_path_length
therefore varies with the constructed environment instead of being a
notebook literal. -/
theorem C9_max_path_length_from_env :
    (∀ envHorizon : Nat, ∃ i j : Nat,
      i < j ∧
      (run_task_trace envHorizon).get? i =
        some (RLlabCall.horizonRead envHorizon) ∧
      (run_task_trace envHorizon).get? j = some RLlabCall.normalizeEnv ∧
      ∃ args, trpoArgsOf (run_task_trace envHorizon) = some args ∧
        args.max_path_length = envHorizon) ∧
    trpoArgsOf (run_task_trace 100) ≠ trpoArgsOf (run_task_trace 321) :=
  ⟨fun _ => ⟨1, 2, by decide, rfl, rfl, ⟨_, rfl, rfl⟩⟩,
   fun h =>
     absurd
       (congrArg (fun o => (Option.map TRPOArgs.max_path_length o).getD 0) h)
       (by decide)⟩

/-- C7: neither run_task nor the per-seed launch loop contains an
error-handling construct: whichever external call raises first, its
error is the value of the whole computation, unchanged. -/
theorem C7_errors_propagate
    {E Env NEnv Pol Base Algo : Type}
    (ext : Externals E Env NEnv Pol Base Algo)
    (launcher : LaunchArgs → Except E Unit) (e : E) :
    (ext.gymEnv env_name false pass_params = Except.error e →
      run_taskE ext = Except.error e) ∧
    (∀ env, ext.gymEnv env_name false pass_params = Except.ok env →
      ext.normalizeEnv env = Except.error e →
      run_taskE ext = Except.error e) ∧
    (∀ env nenv, ext.gymEnv env_name false pass_params = Except.ok env →
      ext.normalizeEnv env = Except.ok nenv →
      ext.gaussianMLPPolicy nenv (32, 32) = Except.error e →
      run_taskE ext = Except.error e) ∧
    (∀ env nenv pol, ext.gymEnv env_name false pass_params = Except.ok env →
      ext.normalizeEnv env = Except.ok nenv →
      ext.gaussianMLPPolicy nenv (32, 32) = Except.ok pol →
      ext.linearFeatureBaseline nenv = Except.error e →
      run_taskE ext = Except.error e) ∧
    (∀ env nenv pol base,
      ext.gymEnv env_name false pass_params = Except.ok env →
      ext.normalizeEnv env = Except.ok nenv →
      ext.gaussianMLPPolicy nenv (32, 32) = Except.ok pol →
      ext.linearFeatureBaseline nenv = Except.ok base →
      ext.trpo nenv pol base
        { batch_size := 1000
          max_path_length := ext.horizon env
          discount := 999 / 1000
          n_itr := 1 } = Except.error e →
      run_taskE ext = Except.error e) ∧
    (∀ env nenv pol base algo,
      ext.gymEnv env_name false pass_params = Except.ok env →
      ext.normalizeEnv env = Except.ok nenv →
      ext.gaussianMLPPolicy nenv (32, 32) = Except.ok pol →
      ext.linearFeatureBaseline nenv = Except.ok base →
      ext.trpo nenv pol base
        { batch_size := 1000
          max_path_length := ext.horizon env
          discount := 999 / 1000
          n_itr := 1 } = Except.ok algo →
      ext.train algo = Except.error e →
      run_taskE ext = Except.error e) ∧
    (∀ s rest, launcher (mkLaunch s) = Except.error e →
      runSeedsE launcher (s :: rest) = Except.error e) := by
  refine ⟨?_, ?_, ?_, ?_, ?_, ?_, ?_⟩
  · intro hg
    simp only [run_taskE, hg]
  · intro env hg hn
    simp only [run_taskE, hg, hn]
  · intro env nenv hg hn hp
    simp only [run_taskE, hg, hn, hp]
  · intro env nenv pol hg hn hp hb
    simp only [run_taskE, hg, hn, hp, hb]
  · intro env nenv pol base hg hn hp hb ht
    simp only [run_taskE, hg, hn, hp, hb, ht]
  · intro env nenv pol base algo hg hn hp hb ht htr
    simp only [run_taskE, hg, hn, hp, hb, ht, htr]
  · intro s rest hl
    simp only [runSeedsE, hl]

/-- Witness: at concrete externals where each call in turn raises, the
error is returned unchanged by run_task and by the launch loop. -/
theorem C7_errors_propagate_witness :
    run_taskE extGymFail = Except.error 1 ∧
    run_taskE extNormFail = Except.error 2 ∧
    run_taskE extPolFail = Except.error 3 ∧
    run_taskE extBaseFail = Except.error 4 ∧
    run_taskE extTrpoFail = Except.error 5 ∧
    run_taskE extTrainFail = Except.error 6 ∧
    runSeedsE launcherFail (5 :: []) = Except.error 7 :=
  ⟨(C7_errors_propagate extGymFail launcherOk 1).1 rfl,
   (C7_errors_propagate extNormFail launcherOk 2).2.1
     { horizon := 100 } rfl rfl,
   (C7_errors_propagate extPolFail launcherOk 3).2.2.1
     { horizon := 100 } () rfl rfl rfl,
   (C7_errors_propagate extBaseFail launcherOk 4).2.2.2.1
     { horizon := 100 } () () rfl rfl rfl rfl,
   (C7_errors_propagate extTrpoFail launcherOk 5).2.2.2.2.1
     { horizon := 100 } () () () rfl rfl rfl rfl rfl,
   (C7_errors_propagate extTrainFail launcherOk 6).2.2.2.2.2.1
     { horizon := 100 } () () () () rfl rfl rfl rfl rfl rfl,
   (C7_errors_propagate extGymFail launcherFail 7).2.2.2.2.2.2 5 [] rfl⟩

end Tutorial04
